import Mathlib

/-!
Verification of the validated-invocation helper (`api`) published in this
repository's blog post "Effective Query Functions for React Query with Zod"
(src/unnamed/part_000, lines 46-98).  The TypeScript source is embedded
shallowly: JSON-like runtime values become the inductive `Value`, the Zod
schemas used by the post (`z.void()`, `z.string().min(n)`, `z.object({...})`)
become the inductive `Zod` with `Zod.parse` mirroring Zod's parse semantics
(strip unknown object keys, reject wrong types, enforce minimum string
length), and the effectful invocation becomes a pure function from the
request data and an explicit world (environment snapshots and a transport
function) to a `CallResult` recording the outcome, the transport requests
issued, and the mismatch reports emitted.
-/

set_option autoImplicit false

namespace GpxApi

/-- JSON-like runtime values, covering what the helper sends and receives.
`undefined` is distinguished from `vnull` because `z.void()` accepts exactly
`undefined`, and a missing object key reads as `undefined`. -/
inductive Value where
  | undefined
  | vnull
  | str (s : String)
  | num (n : Int)
  | boolean (b : Bool)
  | obj (fields : List (String × Value))

/-- Property access `kvs[k]` on a JS object: the first binding of `k`, or
`undefined` when the key is absent. -/
def lookupField (k : String) : List (String × Value) → Value
  | [] => Value.undefined
  | (k', v) :: rest => if k' = k then v else lookupField k rest

/-- Zod issues raised by the schemas the post uses: a wrong runtime type, or
a string shorter than the `min` bound. -/
inductive ValidationError where
  | invalidType (expected : String)
  | tooSmall (minimum : Nat)

mutual
/-- The Zod schema combinators appearing in the source: `z.void()`,
`z.string().min(n)` (with `minLen = 0` for a bare `z.string()`), and
`z.object({...})`. -/
inductive Zod where
  | void
  | string (minLen : Nat)
  | object (fields : ZodFields)

/-- The shape of a `z.object({...})`: an ordered list of key/schema pairs.
A JS object literal cannot repeat a key, so well-formed shapes have
pairwise-distinct names (see `Zod.wff`). -/
inductive ZodFields where
  | nil
  | cons (name : String) (schema : Zod) (rest : ZodFields)
end

mutual
/-- `schema.parse(value)`: returns the parsed value or the thrown `ZodError`.
`z.void()` accepts exactly `undefined`; `z.string().min(n)` accepts strings
of length at least `n`; `z.object` parses each declared field (a missing key
reads as `undefined`) and strips undeclared keys from the output. -/
def Zod.parse : Zod → Value → Except ValidationError Value
  | .void, .undefined => .ok .undefined
  | .void, _ => .error (.invalidType "void")
  | .string n, .str s => if n ≤ s.length then .ok (.str s) else .error (.tooSmall n)
  | .string _, _ => .error (.invalidType "string")
  | .object fs, .obj kvs =>
      match ZodFields.parseFields fs kvs with
      | .error e => .error e
      | .ok ws => .ok (.obj ws)
  | .object _, _ => .error (.invalidType "object")

/-- Parse each declared field of an object shape against the bindings `kvs`,
producing the stripped output bindings in shape order. -/
def ZodFields.parseFields : ZodFields → List (String × Value) → Except ValidationError (List (String × Value))
  | .nil, _ => .ok []
  | .cons k s rest, kvs =>
      match Zod.parse s (lookupField k kvs) with
      | .error e => .error e
      | .ok w =>
          match ZodFields.parseFields rest kvs with
          | .error e => .error e
          | .ok ws => .ok ((k, w) :: ws)
end

/-- `schema.safeParseAsync(value)` resolves with a result object instead of
throwing; its success/failure agrees with `parse`. -/
def Zod.safeParse (s : Zod) (v : Value) : Except ValidationError Value :=
  Zod.parse s v

/-- The declared key names of an object shape, in order. -/
def ZodFields.names : ZodFields → List String
  | .nil => []
  | .cons k _ rest => k :: ZodFields.names rest

/-- The shape's key names are pairwise distinct. -/
def ZodFields.nodupNames : ZodFields → Bool
  | .nil => true
  | .cons k _ rest => !(ZodFields.names rest).contains k && ZodFields.nodupNames rest

mutual
/-- A schema is well-formed when every `z.object` shape in it has pairwise
distinct keys — automatic for schemas written as JS object literals, as all
schemas in the source are. -/
def Zod.wff : Zod → Bool
  | .void => true
  | .string _ => true
  | .object fs => ZodFields.nodupNames fs && ZodFields.allWff fs

/-- Every field schema of the shape is well-formed. -/
def ZodFields.allWff : ZodFields → Bool
  | .nil => true
  | .cons _ s rest => Zod.wff s && ZodFields.allWff rest
end

/-- The `HTTPMethod` enum of the source (lines 51-54). -/
inductive HTTPMethod where
  | GET
  | POST
  deriving DecidableEq

/-- Modelled from the spec: the `EnvName` enum is imported from `utils/env`,
a module absent from the repository snapshot; the spec names a production
mode and a non-production (development) mode, and the source compares
`process.env.NODE_ENV` against `EnvName.PRODUCTION` only. -/
inductive EnvName where
  | PRODUCTION
  | DEVELOPMENT
  | TEST
  deriving DecidableEq

/-- The process-wide environment fields the helper reads: `API_URL` and
`NODE_ENV`. -/
structure Env where
  API_URL : String
  NODE_ENV : EnvName

/-- Transport failures the spec's taxonomy names; axios rejects with one of
these and the helper never inspects them. -/
inductive TransportError where
  | nonOk (status : Nat)
  | network
  | timeout

/-- The argument object the helper hands to `axios` (lines 75-80): base URL,
method, url, and — via the computed key on line 79 — the payload under
`params` for GET and under `data` otherwise. -/
structure TransportRequest where
  baseURL : String
  method : HTTPMethod
  url : String
  params : Option Value
  data : Option Value

/-- The immutable invocation definition `{method, path, requestSchema,
responseSchema}` (lines 60-70). -/
structure ApiDefinition where
  method : HTTPMethod
  path : String
  requestSchema : Zod
  responseSchema : Zod

/-- One invocation's view of the outside world: the environment as read when
the axios request is constructed (line 76, before the await suspends), the
environment as read after the response arrives (line 82), and the transport
collaborator, which returns the response body or a transport failure. -/
structure World where
  envPre : Env
  envPost : Env
  transport : TransportRequest → Except TransportError Value

/-- The error taxonomy of the spec, tagging which parse/transport site
produced the failure. -/
inductive ApiError where
  | requestValidation (e : ValidationError)
  | transport (e : TransportError)
  | responseValidation (e : ValidationError)

/-- How one invocation ends: a synchronous throw to the immediate caller (the
outer function body, line 72), a promise rejection (inside `apiCall`), or a
resolved value. -/
inductive ApiOutcome where
  | thrown (e : ApiError)
  | rejected (e : ApiError)
  | resolved (v : Value)

/-- Everything observable about one invocation: its outcome, the transport
requests issued (in order), and how many mismatch reports were emitted to the
error-reporting collaborator. -/
structure CallResult where
  outcome : ApiOutcome
  sentRequests : List TransportRequest
  reports : Nat

/-- The axios argument object built on lines 75-80: only `API_URL` is read
from the environment here, and the computed key on line 79 routes the
payload to `params` for GET and to `data` for every other method. -/
def buildRequest (d : ApiDefinition) (requestData : Value) (apiURL : String) : TransportRequest :=
  { baseURL := apiURL
    method := d.method
    url := d.path
    params := if d.method = HTTPMethod.GET then some requestData else none
    data := if d.method = HTTPMethod.GET then none else some requestData }

/-- Modelled from the spec: the error-reporting collaborator invoked on
mismatch is a `TODO` in the source (line 85); the spec says a failed
background validation emits exactly one report and a successful one emits
none. -/
def mismatchReports : Except ValidationError Value → Nat
  | .ok _ => 0
  | .error _ => 1

/-- The body of the inner `apiCall` (lines 74-93): issue the single axios
call; on transport failure the promise rejects; on success, in production
run the background `safeParseAsync` pass (reporting a mismatch) and resolve
with the raw body, otherwise resolve with `responseSchema.parse` or reject
with its error. -/
def apiCall (d : ApiDefinition) (requestData : Value) (w : World) : CallResult :=
  let req := buildRequest d requestData w.envPre.API_URL
  match w.transport req with
  | .error e => { outcome := .rejected (.transport e), sentRequests := [req], reports := 0 }
  | .ok body =>
      if w.envPost.NODE_ENV = EnvName.PRODUCTION then
        { outcome := .resolved body
          sentRequests := [req]
          reports := mismatchReports (Zod.safeParse d.responseSchema body) }
      else
        match Zod.parse d.responseSchema body with
        | .error e => { outcome := .rejected (.responseValidation e), sentRequests := [req], reports := 0 }
        | .ok v => { outcome := .resolved v, sentRequests := [req], reports := 0 }

/-- The returned invocation function (lines 71-96): synchronously parse the
request data — a failure is thrown to the immediate caller before any
transport activity, and the parse output is otherwise discarded — then run
`apiCall`. -/
def api (d : ApiDefinition) : Value → World → CallResult :=
  fun requestData w =>
    match Zod.parse d.requestSchema requestData with
    | .error e => { outcome := .thrown (.requestValidation e), sentRequests := [], reports := 0 }
    | .ok _ => apiCall d requestData w

/-- The construction step of `api` (lines 60-71): the whole body before the
returned closure is `return function (requestData) {...}`, so construction
issues no transport requests and cannot fail; the pair records the (empty)
transport trace of construction alongside the returned callable. -/
def apiBuild (d : ApiDefinition) : List TransportRequest × (Value → World → CallResult) :=
  ([], api d)

/-- `GetRepositoryRequest = z.void()` (line 23). -/
def GetRepositoryRequest : Zod := Zod.void

/-- `GetRepositoryResponse = z.object({ name: z.string().min(1) })` (line 24). -/
def GetRepositoryResponse : Zod :=
  Zod.object (ZodFields.cons "name" (Zod.string 1) ZodFields.nil)

/-- The invocation definition passed to `api` on lines 28-33. -/
def getRepositoryDef : ApiDefinition :=
  { method := HTTPMethod.GET
    path := "/repository"
    requestSchema := GetRepositoryRequest
    responseSchema := GetRepositoryResponse }

/-- `getRepository` (lines 25-33): the helper built from the GET /repository
definition. -/
def getRepository : Value → World → CallResult :=
  api getRepositoryDef

/-- A sample base URL used by the concrete scenarios below. -/
def exampleURL : String := "https://api.example.com"

/-- A development (strict-mode) environment snapshot. -/
def devEnv : Env := { API_URL := exampleURL, NODE_ENV := EnvName.DEVELOPMENT }

/-- A production (lenient-mode) environment snapshot. -/
def prodEnv : Env := { API_URL := exampleURL, NODE_ENV := EnvName.PRODUCTION }

/-- A transport collaborator whose server answers every request with `body`. -/
def serverReturning (body : Value) : TransportRequest → Except TransportError Value :=
  fun _ => .ok body

/-- A strict-mode world whose server answers `body`. -/
def strictWorld (body : Value) : World :=
  { envPre := devEnv, envPost := devEnv, transport := serverReturning body }

/-- A lenient-mode world whose server answers `body`. -/
def lenientWorld (body : Value) : World :=
  { envPre := prodEnv, envPost := prodEnv, transport := serverReturning body }

/-- A POST definition whose request schema strips unknown object keys, used to
exhibit that the transmitted payload is the raw input, not the parse output. -/
def stripDef : ApiDefinition :=
  { method := HTTPMethod.POST
    path := "/strip"
    requestSchema := Zod.object (ZodFields.cons "a" (Zod.string 0) ZodFields.nil)
    responseSchema := GetRepositoryResponse }

/-- A request payload carrying a key (`"b"`) the strip schema does not declare. -/
def stripInput : Value := Value.obj [("a", Value.str "x"), ("b", Value.str "y")]

end GpxApi

namespace GpxApi

/-! Supporting lemmas about `lookupField` and re-parsing. -/

/-- Looking up a key at the head of an object's bindings returns its value. -/
theorem lookupField_cons_self (k : String) (w : Value) (kvs : List (String × Value)) :
    lookupField k ((k, w) :: kvs) = w := by
  simp [lookupField]

/-- Looking up a key skips a head binding with a different key. -/
theorem lookupField_cons_ne (k k' : String) (w : Value) (kvs : List (String × Value))
    (h : k ≠ k') : lookupField k' ((k, w) :: kvs) = lookupField k' kvs := by
  simp [lookupField, h]

/-- Parsing an object shape ignores a head binding whose key the shape does not
declare. -/
theorem ZodFields.parseFields_skip : ∀ (fs : ZodFields) (k : String) (w : Value)
    (kvs : List (String × Value)), (ZodFields.names fs).contains k = false →
    ZodFields.parseFields fs ((k, w) :: kvs) = ZodFields.parseFields fs kvs
  | .nil, _, _, _, _ => rfl
  | .cons k' s rest, k, w, kvs, h => by
      simp only [ZodFields.names, List.contains_cons, Bool.or_eq_false_iff,
        beq_eq_false_iff_ne] at h
      obtain ⟨hne, hrest⟩ := h
      have hr := ZodFields.parseFields_skip rest k w kvs (by simpa using hrest)
      simp only [ZodFields.parseFields, lookupField_cons_ne k k' w kvs hne, hr]

mutual
/-- Zod parsing is idempotent for well-formed schemas: the output of a
successful parse parses again to itself. -/
theorem Zod.parse_idem : ∀ (s : Zod) (v w : Value),
    Zod.wff s = true → Zod.parse s v = .ok w → Zod.parse s w = .ok w
  | .void, v, w, _, h => by
      cases v with
      | undefined =>
          simp only [Zod.parse, Except.ok.injEq] at h
          subst h
          rfl
      | vnull => simp [Zod.parse] at h
      | str s => simp [Zod.parse] at h
      | num n => simp [Zod.parse] at h
      | boolean b => simp [Zod.parse] at h
      | obj kvs => simp [Zod.parse] at h
  | .string n, v, w, _, h => by
      cases v with
      | str s =>
          simp only [Zod.parse] at h
          split at h
          next hle =>
            simp only [Except.ok.injEq] at h
            subst h
            simp [Zod.parse, hle]
          next => cases h
      | undefined => simp [Zod.parse] at h
      | vnull => simp [Zod.parse] at h
      | num m => simp [Zod.parse] at h
      | boolean b => simp [Zod.parse] at h
      | obj kvs => simp [Zod.parse] at h
  | .object fs, v, w, hw, h => by
      simp only [Zod.wff, Bool.and_eq_true] at hw
      cases v with
      | obj kvs =>
          simp only [Zod.parse] at h
          cases hp : ZodFields.parseFields fs kvs with
          | error e => rw [hp] at h; cases h
          | ok ws =>
              rw [hp] at h
              simp only [Except.ok.injEq] at h
              subst h
              have hidem := ZodFields.parseFields_idem fs kvs ws hw.1 hw.2 hp
              simp [Zod.parse, hidem]
      | undefined => simp [Zod.parse] at h
      | vnull => simp [Zod.parse] at h
      | str s => simp [Zod.parse] at h
      | num m => simp [Zod.parse] at h
      | boolean b => simp [Zod.parse] at h

/-- Field-wise idempotence: the bindings produced by a successful object parse
parse again to themselves, provided the shape's keys are distinct. -/
theorem ZodFields.parseFields_idem : ∀ (fs : ZodFields) (kvs ws : List (String × Value)),
    ZodFields.nodupNames fs = true → ZodFields.allWff fs = true →
    ZodFields.parseFields fs kvs = .ok ws → ZodFields.parseFields fs ws = .ok ws
  | .nil, kvs, ws, _, _, h => by
      simp only [ZodFields.parseFields, Except.ok.injEq] at h
      subst h
      rfl
  | .cons k s rest, kvs, ws, hnd, hwf, h => by
      simp only [ZodFields.nodupNames, Bool.and_eq_true, Bool.not_eq_true'] at hnd
      simp only [ZodFields.allWff, Bool.and_eq_true] at hwf
      simp only [ZodFields.parseFields] at h
      cases hp : Zod.parse s (lookupField k kvs) with
      | error e => rw [hp] at h; cases h
      | ok w0 =>
          rw [hp] at h
          cases hr : ZodFields.parseFields rest kvs with
          | error e => rw [hr] at h; cases h
          | ok ws' =>
              rw [hr] at h
              simp only [Except.ok.injEq] at h
              subst h
              have hpi := Zod.parse_idem s (lookupField k kvs) w0 hwf.1 hp
              have hri := ZodFields.parseFields_idem rest kvs ws' hnd.2 hwf.2 hr
              have hskip := ZodFields.parseFields_skip rest k w0 ws' hnd.1
              simp only [ZodFields.parseFields, lookupField_cons_self, hpi, hskip, hri]
end

/-! Claim theorems. -/

/-- C1: for every `requestData` that violates the request schema, the
invocation throws `RequestValidationError` synchronously to the immediate
caller and issues zero transport calls — the request schema is validated
before any network I/O is attempted. -/
theorem api_invalid_request_throws_without_transport (d : ApiDefinition) (rd : Value)
    (w : World) (e : ValidationError) (h : Zod.parse d.requestSchema rd = .error e) :
    api d rd w = { outcome := .thrown (.requestValidation e), sentRequests := [], reports := 0 } := by
  simp [api, h]

/-- Witness for C1: calling `getRepository` with `null` (its request schema is
`z.void()`) throws synchronously with no transport call. -/
theorem api_invalid_request_throws_without_transport_witness :
    api getRepositoryDef Value.vnull (strictWorld Value.vnull)
      = { outcome := .thrown (.requestValidation (.invalidType "void")), sentRequests := [], reports := 0 } :=
  api_invalid_request_throws_without_transport getRepositoryDef Value.vnull
    (strictWorld Value.vnull) (ValidationError.invalidType "void") rfl

/-- C2: in lenient (production) mode, every response body — conforming or not
— resolves as-is to the caller, and a non-conforming body emits exactly one
mismatch report (a conforming one emits none), with no effect on the resolved
value. -/
theorem api_lenient_resolves_raw_body_and_reports_mismatch (d : ApiDefinition) (rd : Value)
    (w : World) (vr body : Value)
    (hreq : Zod.parse d.requestSchema rd = .ok vr)
    (ht : w.transport (buildRequest d rd w.envPre.API_URL) = .ok body)
    (hm : w.envPost.NODE_ENV = EnvName.PRODUCTION) :
    (api d rd w).outcome = .resolved body ∧
    (api d rd w).reports = (if (Zod.parse d.responseSchema body).isOk then 0 else 1) := by
  have hout : api d rd w =
      { outcome := .resolved body
        sentRequests := [buildRequest d rd w.envPre.API_URL]
        reports := mismatchReports (Zod.safeParse d.responseSchema body) } := by
    simp [api, hreq, apiCall, ht, hm]
  rw [hout]
  refine ⟨rfl, ?_⟩
  cases hb : Zod.parse d.responseSchema body <;>
    simp [mismatchReports, Zod.safeParse, hb, Except.isOk, Except.toBool]

/-- Witness for C2: in production, a `{"name": ""}` body (violating the
minimum length) resolves unchanged and emits exactly one report. -/
theorem api_lenient_resolves_raw_body_and_reports_mismatch_witness :
    (api getRepositoryDef Value.undefined (lenientWorld (Value.obj [("name", Value.str "")]))).outcome
        = .resolved (Value.obj [("name", Value.str "")]) ∧
    (api getRepositoryDef Value.undefined (lenientWorld (Value.obj [("name", Value.str "")]))).reports = 1 := by
  have h := api_lenient_resolves_raw_body_and_reports_mismatch getRepositoryDef Value.undefined
    (lenientWorld (Value.obj [("name", Value.str "")])) Value.undefined
    (Value.obj [("name", Value.str "")]) rfl rfl rfl
  exact ⟨h.1, by rw [h.2]; rfl⟩

/-- C3: in strict (non-production) mode, every response body that violates the
response schema makes the call reject with `ResponseValidationError`; no value
is resolved. -/
theorem api_strict_mismatch_rejects (d : ApiDefinition) (rd : Value) (w : World)
    (vr body : Value) (e : ValidationError)
    (hreq : Zod.parse d.requestSchema rd = .ok vr)
    (ht : w.transport (buildRequest d rd w.envPre.API_URL) = .ok body)
    (hm : ¬ w.envPost.NODE_ENV = EnvName.PRODUCTION)
    (hresp : Zod.parse d.responseSchema body = .error e) :
    (api d rd w).outcome = .rejected (.responseValidation e) := by
  simp [api, hreq, apiCall, ht, hm, hresp]

/-- Witness for C3: in development, a `{"name": 3}` body rejects with the
response-validation type error. -/
theorem api_strict_mismatch_rejects_witness :
    (api getRepositoryDef Value.undefined (strictWorld (Value.obj [("name", Value.num 3)]))).outcome
      = .rejected (.responseValidation (.invalidType "string")) :=
  api_strict_mismatch_rejects getRepositoryDef Value.undefined
    (strictWorld (Value.obj [("name", Value.num 3)])) Value.undefined
    (Value.obj [("name", Value.num 3)]) (ValidationError.invalidType "string")
    rfl rfl (by simp [strictWorld, devEnv]) rfl

/-- C4: for every `requestData` conforming to the request schema, one
invocation issues exactly one transport call, carrying the payload as query
parameters when the method is GET and as a request body for every other
method. -/
theorem api_valid_request_single_transport_serialization (d : ApiDefinition) (rd : Value)
    (w : World) (vr : Value) (hreq : Zod.parse d.requestSchema rd = .ok vr) :
    (api d rd w).sentRequests = [buildRequest d rd w.envPre.API_URL] ∧
    (buildRequest d rd w.envPre.API_URL).params
        = (if d.method = HTTPMethod.GET then some rd else none) ∧
    (buildRequest d rd w.envPre.API_URL).data
        = (if d.method = HTTPMethod.GET then none else some rd) := by
  refine ⟨?_, rfl, rfl⟩
  simp only [api, hreq, apiCall]
  cases ht : w.transport (buildRequest d rd w.envPre.API_URL) with
  | error e => simp
  | ok body =>
      by_cases hm : w.envPost.NODE_ENV = EnvName.PRODUCTION
      · simp [hm]
      · simp only [hm, if_neg, ite_false]
        cases Zod.parse d.responseSchema body <;> simp

/-- Witness for C4: `getRepository` with `undefined` sends exactly one GET
request whose payload rides in `params`, with `data` empty. -/
theorem api_valid_request_single_transport_serialization_witness :
    (api getRepositoryDef Value.undefined (strictWorld (Value.obj [("name", Value.str "octo")]))).sentRequests
        = [buildRequest getRepositoryDef Value.undefined exampleURL] ∧
    (buildRequest getRepositoryDef Value.undefined exampleURL).params = some Value.undefined ∧
    (buildRequest getRepositoryDef Value.undefined exampleURL).data = none := by
  simpa [strictWorld, devEnv, getRepositoryDef] using
    api_valid_request_single_transport_serialization getRepositoryDef Value.undefined
      (strictWorld (Value.obj [("name", Value.str "octo")])) Value.undefined rfl

/-- C5: in strict mode, every response body conforming to the response schema
resolves with the value obtained by parsing the body, and parsing is
idempotent on conforming values: re-parsing the parsed value succeeds with the
same result. -/
theorem api_strict_conforming_resolves_parsed_idem (d : ApiDefinition) (rd : Value)
    (w : World) (vr body v : Value)
    (hwf : Zod.wff d.responseSchema = true)
    (hreq : Zod.parse d.requestSchema rd = .ok vr)
    (ht : w.transport (buildRequest d rd w.envPre.API_URL) = .ok body)
    (hm : ¬ w.envPost.NODE_ENV = EnvName.PRODUCTION)
    (hresp : Zod.parse d.responseSchema body = .ok v) :
    (api d rd w).outcome = .resolved v ∧ Zod.parse d.responseSchema v = .ok v := by
  refine ⟨?_, Zod.parse_idem d.responseSchema body v hwf hresp⟩
  simp [api, hreq, apiCall, ht, hm, hresp]

/-- Witness for C5: in development, a `{"name": "octo"}` body resolves with
its parsed value, which re-parses to itself. -/
theorem api_strict_conforming_resolves_parsed_idem_witness :
    (api getRepositoryDef Value.undefined (strictWorld (Value.obj [("name", Value.str "octo")]))).outcome
        = .resolved (Value.obj [("name", Value.str "octo")]) ∧
    Zod.parse GetRepositoryResponse (Value.obj [("name", Value.str "octo")])
        = .ok (Value.obj [("name", Value.str "octo")]) := by
  simpa [getRepositoryDef] using
    api_strict_conforming_resolves_parsed_idem getRepositoryDef Value.undefined
      (strictWorld (Value.obj [("name", Value.str "octo")])) Value.undefined
      (Value.obj [("name", Value.str "octo")]) (Value.obj [("name", Value.str "octo")])
      rfl rfl rfl (by simp [strictWorld, devEnv]) rfl

/-- C6: every transport failure (non-2xx, network error, timeout) propagates
as a rejected outcome, with exactly one transport call made — no retries and
no backoff. -/
theorem api_transport_failure_rejects_single_call (d : ApiDefinition) (rd : Value)
    (w : World) (vr : Value) (e : TransportError)
    (hreq : Zod.parse d.requestSchema rd = .ok vr)
    (ht : w.transport (buildRequest d rd w.envPre.API_URL) = .error e) :
    api d rd w = { outcome := .rejected (.transport e)
                   sentRequests := [buildRequest d rd w.envPre.API_URL]
                   reports := 0 } := by
  simp [api, hreq, apiCall, ht]

/-- Witness for C6: a timing-out transport rejects the call after exactly one
request. -/
theorem api_transport_failure_rejects_single_call_witness :
    api getRepositoryDef Value.undefined
        { envPre := devEnv, envPost := devEnv, transport := fun _ => .error TransportError.timeout }
      = { outcome := .rejected (.transport TransportError.timeout)
          sentRequests := [buildRequest getRepositoryDef Value.undefined exampleURL]
          reports := 0 } :=
  api_transport_failure_rejects_single_call getRepositoryDef Value.undefined
    { envPre := devEnv, envPost := devEnv, transport := fun _ => .error TransportError.timeout }
    Value.undefined TransportError.timeout rfl rfl

/-- C7: with the GET `/repository` definition in strict mode, a server body
`{"name": ""}` makes the call reject with `ResponseValidationError` (the
minimum-length issue), and `{"name": "octo"}` resolves to `{name: "octo"}`. -/
theorem getRepository_strict_scenarios :
    (getRepository Value.undefined (strictWorld (Value.obj [("name", Value.str "")]))).outcome
        = .rejected (.responseValidation (.tooSmall 1)) ∧
    (getRepository Value.undefined (strictWorld (Value.obj [("name", Value.str "octo")]))).outcome
        = .resolved (Value.obj [("name", Value.str "octo")]) :=
  ⟨rfl, rfl⟩

/-- C8: construction is pure — building the callable from a definition issues
no transport request, cannot fail, and merely returns the invocation function,
deferring all effects to invocations. -/
theorem apiBuild_pure (d : ApiDefinition) :
    (apiBuild d).1 = [] ∧ ∀ (rd : Value) (w : World), (apiBuild d).2 rd w = api d rd w :=
  ⟨rfl, fun _ _ => rfl⟩

/-- C9: the payload handed to the transport is the original `requestData`, not
the output of parsing it with the request schema — the parse result is
discarded, so schema transforms such as key stripping are not reflected in
what is transmitted. -/
theorem api_transmits_unparsed_request (d : ApiDefinition) (rd : Value) (w : World)
    (vr : Value) (hreq : Zod.parse d.requestSchema rd = .ok vr) :
    (api d rd w).sentRequests = [buildRequest d rd w.envPre.API_URL] ∧
    (if d.method = HTTPMethod.GET then (buildRequest d rd w.envPre.API_URL).params
     else (buildRequest d rd w.envPre.API_URL).data) = some rd := by
  constructor
  · simp only [api, hreq, apiCall]
    cases ht : w.transport (buildRequest d rd w.envPre.API_URL) with
    | error e => simp
    | ok body =>
        by_cases hm : w.envPost.NODE_ENV = EnvName.PRODUCTION
        · simp [hm]
        · simp only [hm, if_neg, ite_false]
          cases Zod.parse d.responseSchema body <;> simp
  · by_cases hg : d.method = HTTPMethod.GET <;> simp [buildRequest, hg]

/-- Witness for C9: a POST whose request schema strips the undeclared key
`"b"` still transmits the raw input, which differs from the parse output. -/
theorem api_transmits_unparsed_request_witness :
    Zod.parse stripDef.requestSchema stripInput = .ok (Value.obj [("a", Value.str "x")]) ∧
    Value.obj [("a", Value.str "x")] ≠ stripInput ∧
    (buildRequest stripDef stripInput exampleURL).data = some stripInput ∧
    (api stripDef stripInput (strictWorld (Value.obj [("name", Value.str "octo")]))).sentRequests
        = [buildRequest stripDef stripInput exampleURL] := by
  have h := api_transmits_unparsed_request stripDef stripInput
    (strictWorld (Value.obj [("name", Value.str "octo")]))
    (Value.obj [("a", Value.str "x")]) rfl
  refine ⟨rfl, by simp [stripInput], ?_, ?_⟩
  · simpa [stripDef] using h.2
  · simpa [strictWorld, devEnv] using h.1

/-- C10: the callable captures no configuration — an invocation's behavior
depends on the environment only through `API_URL` as read when the request is
issued and `NODE_ENV` as read after the response arrives (so a mode change
during the round trip decides the policy applied to that response), and every
request sent carries that `API_URL` as its base URL. -/
theorem api_reads_env_at_use_sites (d : ApiDefinition) (rd : Value) (w w' : World)
    (hurl : w.envPre.API_URL = w'.envPre.API_URL)
    (hmode : w.envPost.NODE_ENV = w'.envPost.NODE_ENV)
    (ht : w.transport = w'.transport) :
    api d rd w = api d rd w' ∧
    ∀ r ∈ (api d rd w).sentRequests, r.baseURL = w.envPre.API_URL := by
  constructor
  · cases hreq : Zod.parse d.requestSchema rd with
    | error e => simp [api, hreq]
    | ok vr => simp [api, hreq, apiCall, hurl, hmode, ht]
  · cases hreq : Zod.parse d.requestSchema rd with
    | error e => simp [api, hreq]
    | ok vr =>
        simp only [api, hreq, apiCall]
        cases hc : w.transport (buildRequest d rd w.envPre.API_URL) with
        | error e => simp [buildRequest]
        | ok body =>
            by_cases hm : w.envPost.NODE_ENV = EnvName.PRODUCTION
            · simp [hm, buildRequest]
            · simp only [hm, if_neg, ite_false]
              cases Zod.parse d.responseSchema body <;> simp [buildRequest]

/-- Witness for C10: two worlds sharing `API_URL` at request time, `NODE_ENV`
at response time, and the transport — but disagreeing on `NODE_ENV` at request
time and on `API_URL` at response time — produce identical invocations. -/
theorem api_reads_env_at_use_sites_witness :
    api getRepositoryDef Value.undefined
        { envPre := { API_URL := exampleURL, NODE_ENV := EnvName.PRODUCTION }
          envPost := { API_URL := "https://other.example.com", NODE_ENV := EnvName.DEVELOPMENT }
          transport := serverReturning (Value.obj [("name", Value.str "octo")]) }
      = api getRepositoryDef Value.undefined
        { envPre := { API_URL := exampleURL, NODE_ENV := EnvName.DEVELOPMENT }
          envPost := { API_URL := exampleURL, NODE_ENV := EnvName.DEVELOPMENT }
          transport := serverReturning (Value.obj [("name", Value.str "octo")]) } :=
  (api_reads_env_at_use_sites getRepositoryDef Value.undefined _ _ rfl rfl rfl).1

end GpxApi
